import Mathlib

/-!
# Verification of the maptoposter-web job orchestration core

Shallow embedding of the job orchestration engine of maptoposter-web:
the job/poster data model (`src/app/models.py`), job cancellation and
queueing (`src/app/services/poster_service.py`), theme loading and the
data-fetch/render pipeline (`src/app/services/map_generator.py`), the
single-job and batch tasks (`src/app/tasks/poster_tasks.py`,
`src/app/utils/batch_poster_generator.py`), and the geocoding service
(`src/app/services/geocoding_service.py`).

Times are modelled as natural numbers (seconds or opaque ticks); stores as
association lists; the renderer, data fetcher and upstream geocoder as
oracles supplied to the embedded orchestration code.
-/

namespace MapPoster

/-! ## Data model, from src/app/models.py -/

/-- `JobStatus` enumeration (models.py, class JobStatus). -/
inductive JobStatus
  | pending
  | processing
  | completed
  | failed
  | cancelled
deriving DecidableEq, Repr

/-- The fields of the `Job` row that the orchestration engine reads and
writes (models.py, class Job).  Timestamps are opaque `Nat` ticks;
`result` holds the poster id recorded on completion. -/
structure Job where
  id : Nat
  theme : String
  status : JobStatus
  progress : Nat := 0
  currentStep : Option String := none
  startedAt : Option Nat := none
  completedAt : Option Nat := none
  failedAt : Option Nat := none
  errorType : Option String := none
  errorMessage : Option String := none
  result : Option Nat := none
deriving DecidableEq, Repr

/-- The fields of the `Poster` row relevant to the orchestration claims
(models.py, class Poster).  `jobId` is the foreign key, declared
`unique=True` in the source. -/
structure PosterRow where
  id : Nat
  jobId : Nat
  theme : String
deriving DecidableEq, Repr

/-- `Job.query.get(job_id)` against an in-memory store. -/
def findJob (store : List Job) (jobId : Nat) : Option Job :=
  store.find? (fun j => j.id == jobId)

/-- Read-modify-write of a single job row, as the service code does after a
`Job.query.get` followed by attribute assignment and `commit`. -/
def updateJob (store : List Job) (jobId : Nat) (f : Job → Job) : List Job :=
  store.map (fun j => if j.id == jobId then f j else j)

/-! ## cancel_job, from src/app/services/poster_service.py (lines 317-349)

The source looks the job up, returns `False` when absent; when the status
is PENDING or PROCESSING it attempts a Celery `revoke` (exceptions from
the revocation are caught and logged), then sets status CANCELLED and
`failed_at` and commits, returning `True`; any other (terminal) status
returns `False` without touching the row.  `revokeSucceeds` models the
outcome of the best-effort revocation; the source ignores it. -/

def cancel_job (store : List Job) (jobId : Nat) (now : Nat)
    (revokeSucceeds : Bool) : Bool × List Job :=
  match findJob store jobId with
  | none => (false, store)
  | some job =>
    if job.status = JobStatus.pending ∨ job.status = JobStatus.processing then
      (true, updateJob store jobId
        (fun j => { j with status := JobStatus.cancelled, failedAt := some now }))
    else
      (false, store)

/-! ## The queue-failure transition, from src/app/services/poster_service.py
(lines 125-131)

When handing the task to Celery raises, `create_poster_job` sets
`status = FAILED`, `error_type = 'QueueError'` and an error message, then
commits and re-raises.  It does **not** set `failed_at` (nor
`completed_at`). -/

def queueFailJob (msg : String) (j : Job) : Job :=
  { j with
    status := JobStatus.failed,
    errorType := some "QueueError",
    errorMessage := some ("Failed to queue task: " ++ msg) }

/-- A job row as freshly created by `create_poster_job`
(poster_service.py lines 52-69): status PENDING, nothing else set. -/
def freshJob (jobId : Nat) (theme : String) : Job :=
  { id := jobId, theme := theme, status := JobStatus.pending }

/-- The timestamp discipline the spec states for terminal states:
`completed_at` iff COMPLETED, `failed_at` iff FAILED or CANCELLED,
never both. -/
def terminalTimestampsOk (j : Job) : Prop :=
  (j.completedAt.isSome ↔ j.status = JobStatus.completed) ∧
  (j.failedAt.isSome ↔ (j.status = JobStatus.failed ∨ j.status = JobStatus.cancelled)) ∧
  ¬ (j.completedAt.isSome ∧ j.failedAt.isSome)

/-! ## load_theme, from src/app/services/map_generator.py (lines 100-137)

The source checks whether `themes/{name}.json` exists; when it does not,
it logs a warning and returns an embedded default theme dictionary — it
has no error path for a missing theme.  The theme store is modelled as an
association list from theme name to the parsed JSON dictionary (itself a
key/value list, as in the source). -/

/-- A parsed theme JSON file: a string-to-string dictionary. -/
def ThemeDict : Type := List (String × String)

instance : DecidableEq ThemeDict := by
  unfold ThemeDict
  infer_instance

/-- The embedded fallback theme returned when the theme file is missing
(map_generator.py lines 117-130). -/
def defaultThemeDict : ThemeDict :=
  [("name", "Feature-Based Shading"),
   ("bg", "#FFFFFF"),
   ("text", "#000000"),
   ("gradient_color", "#FFFFFF"),
   ("water", "#C0C0C0"),
   ("parks", "#F0F0F0"),
   ("road_motorway", "#0A0A0A"),
   ("road_primary", "#1A1A1A"),
   ("road_secondary", "#2A2A2A"),
   ("road_tertiary", "#3A3A3A"),
   ("road_residential", "#4A4A4A"),
   ("road_default", "#3A3A3A")]

/-- Possible outcomes of a theme load, in the vocabulary of the spec's
`ThemeStore.Load(themeID) -> theme | NotFound` contract. -/
inductive LoadResult
  | ok (t : ThemeDict)
  | notFound
deriving DecidableEq

/-- `load_theme` (map_generator.py lines 100-137): return the stored theme
when the file exists, else the embedded default.  The source never
produces a not-found failure. -/
def load_theme (themesDir : List (String × ThemeDict)) (themeName : String) :
    LoadResult :=
  match themesDir.lookup themeName with
  | some t => LoadResult.ok t
  | none => LoadResult.ok defaultThemeDict

/-! ## Python keyword-call binding, for the render invocations

`render_poster` (map_generator.py lines 359-361) is declared as
`render_poster(map_data, theme, city, country, point, output_file,
preview_mode=False, progress_callback=None)`.  Both pipeline call sites
(poster_tasks.py lines 397-408 and batch_poster_generator.py lines
298-308) invoke it with keyword arguments only.  A Python keyword-only
call binds exactly when every keyword names a parameter, no keyword
repeats, and every parameter without a default is supplied; otherwise the
call raises `TypeError` before the function body runs. -/

/-- A Python function signature: parameter names in order, and the subset
of parameters that carry a default value. -/
structure PyFunc where
  params : List String
  defaulted : List String
deriving DecidableEq

/-- A keyword-only Python call binds against a signature. -/
def wellFormedKwargCall (f : PyFunc) (kwargs : List String) : Prop :=
  kwargs.Nodup ∧
  (∀ k ∈ kwargs, k ∈ f.params) ∧
  (∀ p ∈ f.params, p ∈ f.defaulted ∨ p ∈ kwargs)

instance (f : PyFunc) (kwargs : List String) :
    Decidable (wellFormedKwargCall f kwargs) := by
  unfold wellFormedKwargCall
  infer_instance

/-- The first keyword the callee does not accept — the name Python reports
in `TypeError: ... got an unexpected keyword argument ...`. -/
def firstUnexpectedKwarg (f : PyFunc) (kwargs : List String) : Option String :=
  kwargs.find? (fun k => !(f.params.contains k))

/-- The signature of `render_poster` (map_generator.py lines 359-361). -/
def renderPosterSig : PyFunc :=
  { params := ["map_data", "theme", "city", "country", "point", "output_file",
               "preview_mode", "progress_callback"],
    defaulted := ["preview_mode", "progress_callback"] }

/-- Keywords of the `render_poster` call in the single-job task
(poster_tasks.py lines 397-408). -/
def generatePosterRenderKwargs : List String :=
  ["map_data", "theme", "city", "country", "point", "output_file",
   "width_inches", "height_inches", "dpi", "progress_callback"]

/-- Keywords of the `render_poster` call in the batch generator
(batch_poster_generator.py lines 298-308). -/
def batchRenderKwargs : List String :=
  ["map_data", "theme", "city", "country", "point", "output_file",
   "width_inches", "height_inches", "dpi"]

/-! ## Progress checkpoints of the single-job pipeline

`generate_poster` (poster_tasks.py lines 319-474) writes progress values
to the job in program order: 5, 10, 20, 25, 30, then one checkpoint per
completed data source in arrival order — `fetch_progress_callback`
(lines 353-360) maps streets to 40, water to 50 and parks to 60
regardless of when the source arrives — then the render stages
65/70/75/80/85/90, thumbnail 95, and "Complete!" at 100 twice. -/

/-- The three data sources downloaded by `fetch_map_data`. -/
inductive DataSource
  | streets
  | water
  | parks
deriving DecidableEq, Repr

/-- Checkpoint percentage attached to each completed source by
`fetch_progress_callback` (poster_tasks.py lines 353-360). -/
def fetchCheckpoint : DataSource → Nat
  | DataSource.streets => 40
  | DataSource.water => 50
  | DataSource.parks => 60

/-- The full sequence of values written to `job.progress` by one
successful run of `generate_poster`, parameterised by the order in which
the three data-source downloads complete. -/
def singleJobProgressUpdates (arrival : List DataSource) : List Nat :=
  [5, 10, 20, 25, 30] ++ arrival.map fetchCheckpoint ++
    [65, 70, 75, 80, 85, 90, 95, 100, 100]

/-- A list of percentages is non-decreasing. -/
def nonDecreasing : List Nat → Bool
  | [] => true
  | [_] => true
  | a :: b :: rest => a ≤ b && nonDecreasing (b :: rest)

/-! ## Render concurrency model

The source contains no lock, semaphore or single-worker queue around
`render_poster`: the only serialization is the sequential `for` loop over
themes inside one batch (batch_poster_generator.py lines 156-226).  Two
orchestrations running concurrently in one process (as the eager-mode
background threads of poster_service.py lines 86-116 do) are therefore
constrained only by their own program order, and the set of observable
event sequences is the set of all interleavings of their traces. -/

/-- Begin/end events of render calls, tagged by orchestration id. -/
inductive RenderEv
  | beginRender (tid : Nat)
  | endRender (tid : Nat)
deriving DecidableEq, Repr

/-- Render events of one single-job orchestration: exactly one render call
(poster_tasks.py lines 397-408). -/
def singleJobRenderTrace (tid : Nat) : List RenderEv :=
  [RenderEv.beginRender tid, RenderEv.endRender tid]

/-- Render events of one batch orchestration: one render per theme,
strictly sequential (the loop in batch_poster_generator.py lines
161-226). -/
def batchSequentialTrace (tid : Nat) : List String → List RenderEv
  | [] => []
  | _ :: rest =>
      RenderEv.beginRender tid :: RenderEv.endRender tid ::
        batchSequentialTrace tid rest

/-- `isInterleaving xs ys zs`: `zs` is an interleaving of `xs` and `ys`,
each kept in program order.  Absent any shared lock in the code, every
interleaving of two orchestrations' traces is admissible. -/
def isInterleaving : List RenderEv → List RenderEv → List RenderEv → Bool
  | [], [], [] => true
  | xs, ys, z :: zs =>
      (match xs with
       | x :: tl => x == z && isInterleaving tl ys zs
       | [] => false) ||
      (match ys with
       | y :: tl => y == z && isInterleaving xs tl zs
       | [] => false)
  | _ :: _, _, [] => false
  | [], _ :: _, [] => false

/-- Number of renders in flight after each event of a trace, starting
from `d` in flight. -/
def inFlightCounts (d : Nat) : List RenderEv → List Nat
  | [] => []
  | RenderEv.beginRender _ :: rest => (d + 1) :: inFlightCounts (d + 1) rest
  | RenderEv.endRender _ :: rest => (d - 1) :: inFlightCounts (d - 1) rest

/-- The largest number of simultaneously in-flight renders along a trace. -/
def maxInFlight (t : List RenderEv) : Nat :=
  (inFlightCounts 0 t).foldr max 0

/-- A concrete interleaving of two single-render orchestrations in which
the second render begins before the first ends. -/
def overlappedRenderTrace : List RenderEv :=
  [RenderEv.beginRender 1, RenderEv.beginRender 2,
   RenderEv.endRender 2, RenderEv.endRender 1]

/-! ## Job-lookup retry discipline, from src/app/tasks/poster_tasks.py

`generate_poster` (lines 303-317) and `generate_batch_posters`
(lines 83-99) open with the same loop: up to 5 attempts, each preceded by
`db.session.expire_all()` (invalidating the session's read cache), with
`time.sleep(0.5)` after every failed attempt but the last.  When the job
is never found, `generate_poster` returns `{'error': 'Job not found'}`
and `generate_batch_posters` — when no job id at all resolves — returns
`{'error': 'No jobs found'}`, in both cases before any write to a job
row.  The store is an oracle from attempt number to lookup result, so a
job may become visible at any attempt (eventual consistency). -/

/-- Observable actions of a task around job lookup. -/
inductive TaskAct
  | expireCache
  | queryJob (found : Bool)
  | sleepHalfSecond
  | writeJob (jobId : Nat)
deriving DecidableEq, Repr

/-- What a task invocation returns. -/
inductive TaskRet
  | err (msg : String)
  | finished
deriving DecidableEq, Repr

/-- Retry bound of the lookup loop (`max_attempts = 5`). -/
def maxLookupAttempts : Nat := 5

/-- The retry loop body: `remaining` attempts left, current attempt
index `attempt`; sleeps only when another attempt follows. -/
def lookupAttempts (store : Nat → Option Job) :
    Nat → Nat → Option Job × List TaskAct
  | _, 0 => (none, [])
  | attempt, remaining + 1 =>
    match store attempt with
    | some j => (some j, [TaskAct.expireCache, TaskAct.queryJob true])
    | none =>
      match remaining with
      | 0 => (none, [TaskAct.expireCache, TaskAct.queryJob false])
      | _ + 1 =>
        let r := lookupAttempts store (attempt + 1) remaining
        (r.1, TaskAct.expireCache :: TaskAct.queryJob false ::
          TaskAct.sleepHalfSecond :: r.2)

/-- The full retry loop of `generate_poster` (poster_tasks.py 303-313). -/
def lookupJobWithRetries (store : Nat → Option Job) :
    Option Job × List TaskAct :=
  lookupAttempts store 0 maxLookupAttempts

/-- `generate_poster` around its lookup: when the job is never found the
task returns `{'error': 'Job not found'}` at once; otherwise the task
body `run` (which performs the writes) executes. -/
def generate_poster_outcome (store : Nat → Option Job)
    (run : Job → TaskRet × List TaskAct) : TaskRet × List TaskAct :=
  match lookupJobWithRetries store with
  | (none, tr) => (TaskRet.err "Job not found", tr)
  | (some j, tr) => ((run j).1, tr ++ (run j).2)

/-- The per-id lookup loop of `generate_batch_posters` (lines 83-96):
each job id is retried independently; unresolvable ids are skipped. -/
def batchLookupJobs (store : Nat → Nat → Option Job) :
    List Nat → List Job × List TaskAct
  | [] => ([], [])
  | jid :: rest =>
    let r := lookupJobWithRetries (store jid)
    let rs := batchLookupJobs store rest
    (match r.1 with
     | some j => j :: rs.1
     | none => rs.1, r.2 ++ rs.2)

/-- `generate_batch_posters` around its lookups: with no resolvable job
the task returns `{'error': 'No jobs found'}` before any write
(lines 97-99); otherwise the batch body `run` executes. -/
def generate_batch_outcome (store : Nat → Nat → Option Job)
    (jobIds : List Nat) (run : List Job → TaskRet × List TaskAct) :
    TaskRet × List TaskAct :=
  let r := batchLookupJobs store jobIds
  if r.1.isEmpty then (TaskRet.err "No jobs found", r.2)
  else ((run r.1).1, r.2 ++ (run r.1).2)

/-- The action trace of one fully exhausted lookup: five
expire-then-query rounds with a half-second sleep between consecutive
rounds, and no write. -/
def exhaustedLookupTrace : List TaskAct :=
  [TaskAct.expireCache, TaskAct.queryJob false, TaskAct.sleepHalfSecond,
   TaskAct.expireCache, TaskAct.queryJob false, TaskAct.sleepHalfSecond,
   TaskAct.expireCache, TaskAct.queryJob false, TaskAct.sleepHalfSecond,
   TaskAct.expireCache, TaskAct.queryJob false, TaskAct.sleepHalfSecond,
   TaskAct.expireCache, TaskAct.queryJob false]

/-! ## Geocoding service, from src/app/services/geocoding_service.py

`GeocodingService.geocode` (lines 33-103): build the cache key
`geocode:{city.lower()}:{country.lower()}`; on a cache hit return the
cached dict with `cached=True` (the rate limiter is not touched).  On a
miss, `_check_rate_limit` (lines 105-123) does a Redis `INCR` on a global
key, sets a 60-second expiry when the counter was just created, and
allows the request iff the counter is at most 10; when disallowed the
service raises `RateLimitExceeded` without consulting upstream.
Otherwise the upstream resolver (an oracle here) is consulted: a located
result is written to the cache with a 30-day TTL and returned with
`cached=False`; `None` from upstream is returned as a not-found outcome
and a transport error raises `GeocodingError` — in neither failure case
is the cache written.  Time is in seconds; the rate limiter state is the
Redis counter with its absolute expiry instant, `none` when the key is
absent or expired. -/

/-- The cached/returned geocode dict. -/
structure GeoResult where
  city : String
  country : String
  latitude : Int
  longitude : Int
  displayName : String
  cached : Bool
deriving DecidableEq, Repr

/-- Outcome of one upstream (Nominatim) resolution, an oracle. -/
inductive UpstreamGeo
  | located (lat lon : Int) (address : String)
  | nothingFound
  | transportFailure (msg : String)
deriving DecidableEq, Repr

/-- Outcome of `GeocodingService.geocode`. -/
inductive GeoOutcome
  | hitCache (r : GeoResult)
  | resolved (r : GeoResult)
  | locationNotFound
  | rateLimitExceeded
  | geocodingFailed (msg : String)
deriving DecidableEq, Repr

/-- Mutable state the service touches: the Redis geocode cache and the
global rate-limit counter with its expiry instant. -/
structure GeoState where
  cache : List (String × GeoResult)
  rateLimiter : Option (Nat × Nat)
deriving DecidableEq, Repr

/-- `rate_limit_window = 60` seconds. -/
def rateLimitWindow : Nat := 60

/-- `rate_limit_max = 10` requests per window. -/
def rateLimitMax : Nat := 10

/-- `_check_rate_limit` (lines 105-123): `INCR` the counter (creating it
at 1 and arming the 60-second expiry when absent or expired), allow iff
the counter is at most 10.  Returns (allowed, new counter state). -/
def check_rate_limit (now : Nat) (st : Option (Nat × Nat)) :
    Bool × Option (Nat × Nat) :=
  match st with
  | none => (decide (1 ≤ rateLimitMax), some (1, now + rateLimitWindow))
  | some (c, e) =>
    if now < e then
      (decide (c + 1 ≤ rateLimitMax), some (c + 1, e))
    else
      (decide (1 ≤ rateLimitMax), some (1, now + rateLimitWindow))

/-- The cache key `geocode:{city.lower()}:{country.lower()}`. -/
def geocodeCacheKey (city country : String) : String :=
  "geocode:" ++ city.toLower ++ ":" ++ country.toLower

/-- `GeocodingService.geocode` (lines 33-103).  Returns the outcome, the
new state, and whether the upstream resolver was consulted. -/
def geocode (st : GeoState) (now : Nat) (upstream : UpstreamGeo)
    (city country : String) : GeoOutcome × GeoState × Bool :=
  let key := geocodeCacheKey city country
  match st.cache.lookup key with
  | some r => (GeoOutcome.hitCache { r with cached := true }, st, false)
  | none =>
    let rl := check_rate_limit now st.rateLimiter
    if rl.1 then
      match upstream with
      | UpstreamGeo.located lat lon addr =>
        let r : GeoResult :=
          { city := city, country := country, latitude := lat,
            longitude := lon, displayName := addr, cached := false }
        (GeoOutcome.resolved r,
         { cache := st.cache ++ [(key, r)], rateLimiter := rl.2 }, true)
      | UpstreamGeo.nothingFound =>
        (GeoOutcome.locationNotFound,
         { st with rateLimiter := rl.2 }, true)
      | UpstreamGeo.transportFailure msg =>
        (GeoOutcome.geocodingFailed msg,
         { st with rateLimiter := rl.2 }, true)
    else
      (GeoOutcome.rateLimitExceeded, { st with rateLimiter := rl.2 }, false)

/-- A sequence of geocode calls for one (city, country) pair whose
upstream answer is always `None` (so the cache is never populated and
every call misses), at the given times.  Returns the (outcome, upstream
consulted) pairs and the final state. -/
def repeatedMisses (city country : String) (st : GeoState) :
    List Nat → List (GeoOutcome × Bool) × GeoState
  | [] => ([], st)
  | now :: rest =>
    let step := geocode st now UpstreamGeo.nothingFound city country
    let tail := repeatedMisses city country step.2.1 rest
    ((step.1, step.2.2) :: tail.1, tail.2)

/-- Expected per-call results of `repeatedMisses` as a function of the
counter value before the calls and the number of calls in the window. -/
def expectedMissResults (c : Nat) : Nat → List (GeoOutcome × Bool)
  | 0 => []
  | n + 1 =>
    (if c + 1 ≤ rateLimitMax then (GeoOutcome.locationNotFound, true)
     else (GeoOutcome.rateLimitExceeded, false)) ::
      expectedMissResults (c + 1) n

/-! ## Batch orchestration, from src/app/tasks/poster_tasks.py
(lines 66-290) and src/app/utils/batch_poster_generator.py (lines 64-255)

`generate_batch_posters` resolves the member jobs, sets them all to
PROCESSING, builds `job_map = {job.theme: job for job in jobs}` (a later
job with the same theme overwrites an earlier one) and hands a
`result_callback` to the batch generator.  The generator fetches map
data once, then renders the themes strictly sequentially; after each
theme it invokes `result_callback` with that theme's result, which
immediately commits the Poster row and the COMPLETED update (success) or
the FAILED update (failure) for that theme's job.  The renderer itself
is an oracle from theme to outcome; `_render_single_theme` catches its
own exceptions and turns them into an error result, so the loop always
continues with the next theme.  The `posters.job_id` column is declared
`unique=True`, so inserting a second poster for the same job raises at
`flush`; the generator catches exceptions escaping `result_callback`
(batch_poster_generator.py lines 201-205), leaving the store unchanged
for that result.  The random uuid4 poster id is modelled as an injective
function of the job id. -/

/-- Outcome of `_render_single_theme` for one theme: the `status` field
of the result dict it returns. -/
inductive RenderOutcome
  | rendered
  | renderError (msg : String)
deriving DecidableEq, Repr

/-- Whether an outcome is the success outcome. -/
def isRendered : RenderOutcome → Bool
  | RenderOutcome.rendered => true
  | RenderOutcome.renderError _ => false

/-- uuid4 poster-id generation, modelled injectively from the job id. -/
def posterIdFor (jobId : Nat) : Nat := jobId

/-- `job_map.get(theme)`: the last job in the list with that theme. -/
def jobMapLookup (jobs : List Job) (theme : String) : Option Job :=
  jobs.reverse.find? (fun j => j.theme == theme)

/-- The success update of `result_callback` (poster_tasks.py lines
164-218): status COMPLETED, `completed_at`, progress 100, current step,
and the new poster id as the job result. -/
def completeJob (now : Nat) (j : Job) : Job :=
  { j with
    status := JobStatus.completed,
    completedAt := some now,
    progress := 100,
    currentStep := some ("Complete! " ++ j.theme),
    result := some (posterIdFor j.id) }

/-- The failure update of `result_callback` (poster_tasks.py lines
220-232): status FAILED, `failed_at`, error fields, progress 100. -/
def failJobBatch (now : Nat) (msg : String) (j : Job) : Job :=
  { j with
    status := JobStatus.failed,
    failedAt := some now,
    errorType := some "BatchGenerationError",
    errorMessage := some msg,
    currentStep := some ("Failed: " ++ j.theme),
    progress := 100 }

/-- The job and poster tables as the batch task sees them. -/
structure BatchDb where
  jobs : List Job
  posters : List PosterRow
deriving DecidableEq, Repr

/-- `result_callback` (poster_tasks.py lines 153-232): look the theme up
in the job map (`jobs0` is the job list captured at task start); apply
the success or failure update to that job and, on success, insert the
Poster row — unless the unique `job_id` constraint fires at flush, in
which case the escaping exception is swallowed by the caller and the
store is left unchanged. -/
def result_callback (jobs0 : List Job) (db : BatchDb) (theme : String)
    (oc : RenderOutcome) (now : Nat) : BatchDb :=
  match jobMapLookup jobs0 theme with
  | none => db
  | some job =>
    match oc with
    | RenderOutcome.rendered =>
      if db.posters.any (fun p => p.jobId == job.id) then db
      else
        { jobs := updateJob db.jobs job.id (completeJob now),
          posters := db.posters ++
            [{ id := posterIdFor job.id, jobId := job.id, theme := theme }] }
    | RenderOutcome.renderError msg =>
      { db with jobs := updateJob db.jobs job.id (failJobBatch now msg) }

/-- The sequential render loop of `create_batch_posters`
(batch_poster_generator.py lines 161-226): each theme in order, outcome
from the render oracle, result applied immediately. -/
def batchRenderLoop (render : String → RenderOutcome) (jobs0 : List Job)
    (now : Nat) : List String → BatchDb → BatchDb
  | [], db => db
  | theme :: rest, db =>
    batchRenderLoop render jobs0 now rest
      (result_callback jobs0 db theme (render theme) now)

/-- The member jobs of one batch, as created one per theme by
`create_batch_poster_job` (poster_service.py lines 217-241) and set to
PROCESSING with `started_at` by the batch task (poster_tasks.py lines
129-133); ids are modelled by an increasing counter. -/
def mkBatchJobsFrom (startId : Nat) : List String → List Job
  | [] => []
  | t :: rest =>
    { id := startId, theme := t, status := JobStatus.processing,
      startedAt := some 0 } :: mkBatchJobsFrom (startId + 1) rest

/-- The member jobs of a batch, numbered from 0. -/
def mkBatchJobs (themes : List String) : List Job := mkBatchJobsFrom 0 themes

/-- One run of the batch task from the point where all member jobs are
PROCESSING and the shared map-data fetch has succeeded: the themes are
rendered sequentially against an initially poster-free store. -/
def run_batch (themes : List String) (render : String → RenderOutcome)
    (now : Nat) : BatchDb :=
  batchRenderLoop render (mkBatchJobs themes) now themes
    { jobs := mkBatchJobs themes, posters := [] }

/-- The terminal status a theme's job receives from its own render
outcome. -/
def renderStatus : RenderOutcome → JobStatus
  | RenderOutcome.rendered => JobStatus.completed
  | RenderOutcome.renderError _ => JobStatus.failed

/-- The finalization `result_callback` applies to a job, determined by
the render outcome of the job's own theme. -/
def finalizeJob (render : String → RenderOutcome) (now : Nat) (j : Job) :
    Job :=
  match render j.theme with
  | RenderOutcome.rendered => completeJob now j
  | RenderOutcome.renderError msg => failJobBatch now msg j

/-- A job's state once the loop has processed the themes in `done`. -/
def jobAfter (render : String → RenderOutcome) (done : List String)
    (now : Nat) (j : Job) : Job :=
  if j.theme ∈ done then finalizeJob render now j else j

/-- The Poster rows created for a processed theme list, in order. -/
def postersOf (jobs0 : List Job) (render : String → RenderOutcome) :
    List String → List PosterRow
  | [] => []
  | t :: rest =>
    match jobMapLookup jobs0 t, render t with
    | some j, RenderOutcome.rendered =>
      { id := posterIdFor j.id, jobId := j.id, theme := t } ::
        postersOf jobs0 render rest
    | some _, RenderOutcome.renderError _ => postersOf jobs0 render rest
    | none, _ => postersOf jobs0 render rest

/-- Number of COMPLETED jobs in a job table. -/
def countCompleted (jobs : List Job) : Nat :=
  (jobs.filter (fun j => j.status == JobStatus.completed)).length

/-! ## Theorems -/

/-- C6: `CancelJob` returns true, marks the job CANCELLED and sets
`failed_at` exactly when the job exists with status PENDING or PROCESSING,
regardless of the revocation outcome; for a missing or already terminal
job it returns false and leaves the store unchanged. -/
theorem cancel_job_spec (store : List Job) (jobId now : Nat)
    (revokeSucceeds : Bool) :
    (findJob store jobId = none →
      cancel_job store jobId now revokeSucceeds = (false, store)) ∧
    (∀ job, findJob store jobId = some job →
      ((job.status = JobStatus.pending ∨ job.status = JobStatus.processing) →
        cancel_job store jobId now revokeSucceeds =
          (true, updateJob store jobId
            (fun j => { j with status := JobStatus.cancelled, failedAt := some now }))) ∧
      ((job.status = JobStatus.completed ∨ job.status = JobStatus.failed ∨
          job.status = JobStatus.cancelled) →
        cancel_job store jobId now revokeSucceeds = (false, store))) := by
  refine ⟨?_, ?_⟩
  · intro h
    simp [cancel_job, h]
  · intro job h
    constructor
    · intro hs
      simp [cancel_job, h, hs]
    · intro hs
      have hns : ¬ (job.status = JobStatus.pending ∨ job.status = JobStatus.processing) := by
        rcases hs with h1 | h1 | h1 <;> simp [h1]
      simp [cancel_job, h, hns]

/-- Concrete witness for `cancel_job_spec`: a store holding a pending job
(id 1) and a completed job (id 2); cancelling 1 succeeds and stamps
`failed_at`, cancelling 2 and cancelling the absent id 9 are refused. -/
theorem cancel_job_spec_witness :
    cancel_job [freshJob 1 "noir", { freshJob 2 "noir" with status := JobStatus.completed }] 1 7 true =
      (true, [{ freshJob 1 "noir" with status := JobStatus.cancelled, failedAt := some 7 },
              { freshJob 2 "noir" with status := JobStatus.completed }]) ∧
    cancel_job [freshJob 1 "noir", { freshJob 2 "noir" with status := JobStatus.completed }] 2 7 true =
      (false, [freshJob 1 "noir", { freshJob 2 "noir" with status := JobStatus.completed }]) ∧
    cancel_job [freshJob 1 "noir", { freshJob 2 "noir" with status := JobStatus.completed }] 9 7 true =
      (false, [freshJob 1 "noir", { freshJob 2 "noir" with status := JobStatus.completed }]) := by
  refine ⟨?_, ?_, ?_⟩
  · have h := ((cancel_job_spec [freshJob 1 "noir",
      { freshJob 2 "noir" with status := JobStatus.completed }] 1 7 true).2
        (freshJob 1 "noir") (by decide)).1 (by decide)
    rw [h]
    decide
  · exact ((cancel_job_spec [freshJob 1 "noir",
      { freshJob 2 "noir" with status := JobStatus.completed }] 2 7 true).2
        { freshJob 2 "noir" with status := JobStatus.completed } (by decide)).2 (by decide)
  · exact (cancel_job_spec [freshJob 1 "noir",
      { freshJob 2 "noir" with status := JobStatus.completed }] 9 7 true).1 (by decide)

/-- C7: the queue-failure path of `create_poster_job` (poster_service.py
lines 125-131) marks a fresh job FAILED but sets neither `failed_at` nor
`completed_at`, violating the claimed "failed_at iff status Failed"
discipline at this concrete input. -/
theorem queue_failure_missing_failed_at :
    (queueFailJob "broker down" (freshJob 1 "noir")).status = JobStatus.failed ∧
    (queueFailJob "broker down" (freshJob 1 "noir")).failedAt = none ∧
    (queueFailJob "broker down" (freshJob 1 "noir")).completedAt = none ∧
    ¬ terminalTimestampsOk (queueFailJob "broker down" (freshJob 1 "noir")) := by
  refine ⟨rfl, rfl, rfl, ?_⟩
  intro h
  have := h.2.1.mpr (Or.inl rfl)
  simp [queueFailJob, freshJob] at this

/-- C9 counterexample: loading a theme name that is not in the theme store
does not fail with NotFound — `load_theme` returns the embedded default
theme dictionary. -/
theorem load_theme_missing_not_notfound :
    load_theme [] "nonexistent_theme" ≠ LoadResult.notFound ∧
    load_theme [] "nonexistent_theme" = LoadResult.ok defaultThemeDict := by
  constructor
  · intro h
    simp [load_theme] at h
  · rfl

/-- C9 amended: loading a theme whose identifier is not in the store never
fails; it returns the embedded default `feature_based` theme. -/
theorem load_theme_missing_returns_default
    (themesDir : List (String × ThemeDict)) (themeName : String)
    (h : themesDir.lookup themeName = none) :
    load_theme themesDir themeName = LoadResult.ok defaultThemeDict := by
  simp [load_theme, h]

/-- Concrete witness for `load_theme_missing_returns_default`: a store
holding only a `noir` theme, queried for `pastel`. -/
theorem load_theme_missing_returns_default_witness :
    load_theme [("noir", [("bg", "#000000")])] "pastel" = LoadResult.ok defaultThemeDict :=
  load_theme_missing_returns_default [("noir", [("bg", "#000000")])] "pastel" (by decide)

/-- C1 counterexample: with no render lock in the code, the interleaving
in which orchestration 2 begins its render before orchestration 1 ends
its own is admissible (both traces stay in program order), and two
renders are then in flight at once. -/
theorem render_overlap_counterexample :
    isInterleaving (singleJobRenderTrace 1) (singleJobRenderTrace 2)
      overlappedRenderTrace = true ∧
    maxInFlight overlappedRenderTrace = 2 := by
  constructor
  · decide
  · decide

/-- C1 amended: render exclusion holds only within one orchestration —
a batch renders its themes strictly sequentially and a single job
performs one render, so a single orchestration never has two renders in
flight; the code contains no cross-orchestration lock. -/
theorem renders_sequential_within_one_orchestration
    (tid : Nat) (themes : List String) :
    maxInFlight (batchSequentialTrace tid themes) ≤ 1 ∧
    maxInFlight (singleJobRenderTrace tid) ≤ 1 := by
  constructor
  · induction themes with
    | nil =>
      simp [batchSequentialTrace, maxInFlight, inFlightCounts]
    | cons t ts ih =>
      have hstep :
          maxInFlight (batchSequentialTrace tid (t :: ts)) =
            max 1 (max 0 (maxInFlight (batchSequentialTrace tid ts))) := by
        simp [batchSequentialTrace, maxInFlight, inFlightCounts]
      rw [hstep]
      exact Nat.max_le.mpr ⟨Nat.le_refl 1, Nat.max_le.mpr ⟨Nat.zero_le 1, ih⟩⟩
  · simp [singleJobRenderTrace, maxInFlight, inFlightCounts]

/-- C2: the pipeline render invocations are not well-formed against
`render_poster`'s parameter list — both the single-job task and the batch
generator pass `width_inches`, `height_inches` and `dpi`, which
`render_poster` does not accept, so each call raises `TypeError`
(`unexpected keyword argument width_inches`) instead of rendering. -/
theorem render_call_kwargs_mismatch :
    ¬ wellFormedKwargCall renderPosterSig generatePosterRenderKwargs ∧
    ¬ wellFormedKwargCall renderPosterSig batchRenderKwargs ∧
    firstUnexpectedKwarg renderPosterSig generatePosterRenderKwargs =
      some "width_inches" ∧
    firstUnexpectedKwarg renderPosterSig batchRenderKwargs =
      some "width_inches" := by
  refine ⟨?_, ?_, by decide, by decide⟩
  · intro h
    have := h.2.1 "width_inches" (by decide)
    simp [renderPosterSig] at this
  · intro h
    have := h.2.1 "width_inches" (by decide)
    simp [renderPosterSig] at this

/-- C3 counterexample: when the parks download completes first, then
water, then streets — an admissible arrival order — the sequence of
progress values written by `generate_poster` contains 30, 60, 50, 40 and
is not non-decreasing. -/
theorem progress_decreasing_counterexample :
    [DataSource.parks, DataSource.water, DataSource.streets].Perm
      [DataSource.streets, DataSource.water, DataSource.parks] ∧
    nonDecreasing (singleJobProgressUpdates
      [DataSource.parks, DataSource.water, DataSource.streets]) = false := by
  constructor
  · decide
  · decide

/-- C3 amended: the progress sequence of a single job is non-decreasing
exactly when the three data sources complete in the order streets, water,
parks; each source carries a fixed checkpoint (40/50/60) independent of
arrival order, so every other arrival order produces a decrease. -/
theorem progress_monotone_iff_canonical_arrival (arrival : List DataSource)
    (h : arrival.Perm [DataSource.streets, DataSource.water, DataSource.parks]) :
    nonDecreasing (singleJobProgressUpdates arrival) = true ↔
      arrival = [DataSource.streets, DataSource.water, DataSource.parks] := by
  have hlen : arrival.length = 3 := h.length_eq
  rcases arrival with _ | ⟨a, rest⟩
  · simp at hlen
  rcases rest with _ | ⟨b, rest⟩
  · simp at hlen
  rcases rest with _ | ⟨c, rest⟩
  · simp at hlen
  rcases rest with _ | ⟨d, t⟩
  · cases a <;> cases b <;> cases c <;> revert h <;> decide
  · simp at hlen

/-- Concrete witness for `progress_monotone_iff_canonical_arrival`: the
canonical arrival order yields a non-decreasing progress sequence. -/
theorem progress_monotone_canonical_witness :
    nonDecreasing (singleJobProgressUpdates
      [DataSource.streets, DataSource.water, DataSource.parks]) = true :=
  (progress_monotone_iff_canonical_arrival
    [DataSource.streets, DataSource.water, DataSource.parks] (by decide)).mpr rfl

/-- C5: when the store never yields the job, the single-job task performs
exactly five expire-then-query rounds with a half-second sleep between
consecutive rounds, returns the `Job not found` error result and performs
no write; the batch task does the same per job id and, with no job
resolvable, returns the `No jobs found` error result without writing. -/
theorem lookup_retry_exhausted_spec
    (store : Nat → Option Job) (run : Job → TaskRet × List TaskAct)
    (bstore : Nat → Nat → Option Job) (jobIds : List Nat)
    (brun : List Job → TaskRet × List TaskAct)
    (h1 : ∀ i, i < maxLookupAttempts → store i = none)
    (h2 : ∀ jid ∈ jobIds, ∀ i, i < maxLookupAttempts → bstore jid i = none) :
    generate_poster_outcome store run =
      (TaskRet.err "Job not found", exhaustedLookupTrace) ∧
    generate_batch_outcome bstore jobIds brun =
      (TaskRet.err "No jobs found",
        (jobIds.map (fun _ => exhaustedLookupTrace)).flatten) ∧
    (∀ jid, TaskAct.writeJob jid ∉ exhaustedLookupTrace) := by
  have key : ∀ (s : Nat → Option Job),
      (∀ i, i < maxLookupAttempts → s i = none) →
      lookupJobWithRetries s = (none, exhaustedLookupTrace) := by
    intro s hs
    have e0 := hs 0 (by decide)
    have e1 := hs 1 (by decide)
    have e2 := hs 2 (by decide)
    have e3 := hs 3 (by decide)
    have e4 := hs 4 (by decide)
    simp [lookupJobWithRetries, maxLookupAttempts, lookupAttempts,
      e0, e1, e2, e3, e4, exhaustedLookupTrace]
  refine ⟨?_, ?_, ?_⟩
  · simp [generate_poster_outcome, key store h1]
  · have bkey : ∀ (l : List Nat),
        (∀ jid ∈ l, ∀ i, i < maxLookupAttempts → bstore jid i = none) →
        batchLookupJobs bstore l =
          ([], (l.map (fun _ => exhaustedLookupTrace)).flatten) := by
      intro l
      induction l with
      | nil => intro _; rfl
      | cons jid rest ih =>
        intro hl
        have hk := key (bstore jid) (fun i hi => hl jid (by simp) i hi)
        have hr := ih (fun j hj i hi => hl j (by simp [hj]) i hi)
        simp [batchLookupJobs, hk, hr]
    simp [generate_batch_outcome, bkey jobIds h2]
  · intro jid
    simp [exhaustedLookupTrace]

/-- Concrete witness for `lookup_retry_exhausted_spec`: stores that never
find any job, a two-id batch, and task bodies that would write had they
run. -/
theorem lookup_retry_exhausted_spec_witness :
    generate_poster_outcome (fun _ => none)
        (fun _ => (TaskRet.finished, [TaskAct.writeJob 5])) =
      (TaskRet.err "Job not found", exhaustedLookupTrace) ∧
    generate_batch_outcome (fun _ _ => none) [3, 4]
        (fun _ => (TaskRet.finished, [])) =
      (TaskRet.err "No jobs found",
        (([3, 4] : List Nat).map (fun _ => exhaustedLookupTrace)).flatten) := by
  have h := lookup_retry_exhausted_spec (fun _ => none)
    (fun _ => (TaskRet.finished, [TaskAct.writeJob 5]))
    (fun _ _ => none) [3, 4] (fun _ => (TaskRet.finished, []))
    (fun _ _ => rfl) (fun _ _ _ _ => rfl)
  exact ⟨h.1, h.2.1⟩

/-- Helper: on a cache miss, within an armed window, each missing-answer
geocode call increments the counter by one and is allowed exactly while
the counter stays at or below the maximum; the cache is never written. -/
theorem repeatedMisses_in_window (city country : String)
    (cache : List (String × GeoResult)) (e : Nat)
    (hmiss : cache.lookup (geocodeCacheKey city country) = none)
    (times : List Nat) :
    ∀ c : Nat, (∀ t ∈ times, t < e) →
    repeatedMisses city country ⟨cache, some (c, e)⟩ times =
      (expectedMissResults c times.length,
       ⟨cache, some (c + times.length, e)⟩) := by
  induction times with
  | nil =>
    intro c _
    simp [repeatedMisses, expectedMissResults]
  | cons t ts ih =>
    intro c htimes
    have ht : t < e := htimes t (by simp)
    have hrec := ih (c + 1) (fun u hu => htimes u (by simp [hu]))
    have harith : c + 1 + ts.length = c + (ts.length + 1) := by omega
    by_cases hc : c + 1 ≤ rateLimitMax
    · simp [repeatedMisses, geocode, hmiss, check_rate_limit, ht, hc, hrec,
        expectedMissResults, harith]
    · simp [repeatedMisses, geocode, hmiss, check_rate_limit, ht, hc, hrec,
        expectedMissResults, harith]

/-- C8: starting from an absent rate-limit counter, eleven cache-missing
geocode calls whose first arrives at `t0` and whose rest arrive within
the 60-second window are answered: the first ten consult upstream, the
eleventh fails `RateLimitExceeded` without consulting upstream; and once
the window has elapsed a further call is allowed again (it consults
upstream and succeeds). -/
theorem geocode_rate_limit_spec (city country : String)
    (cache : List (String × GeoResult)) (t0 : Nat) (ts : List Nat)
    (hmiss : cache.lookup (geocodeCacheKey city country) = none)
    (hlen : ts.length = 10)
    (hts : ∀ t ∈ ts, t < t0 + rateLimitWindow) :
    (repeatedMisses city country ⟨cache, none⟩ (t0 :: ts)).1 =
      List.replicate 10 (GeoOutcome.locationNotFound, true) ++
        [(GeoOutcome.rateLimitExceeded, false)] ∧
    (repeatedMisses city country ⟨cache, none⟩ (t0 :: ts)).2 =
      ⟨cache, some (11, t0 + rateLimitWindow)⟩ ∧
    (∀ u, t0 + rateLimitWindow ≤ u → ∀ lat lon addr,
      geocode (repeatedMisses city country ⟨cache, none⟩ (t0 :: ts)).2 u
          (UpstreamGeo.located lat lon addr) city country =
        (GeoOutcome.resolved
          { city := city, country := country, latitude := lat,
            longitude := lon, displayName := addr, cached := false },
         { cache := cache ++ [(geocodeCacheKey city country,
             { city := city, country := country, latitude := lat,
               longitude := lon, displayName := addr, cached := false })],
           rateLimiter := some (1, u + rateLimitWindow) }, true)) := by
  have hrest := repeatedMisses_in_window city country cache
    (t0 + rateLimitWindow) hmiss ts 1 hts
  have h0 : repeatedMisses city country ⟨cache, none⟩ (t0 :: ts) =
      ((GeoOutcome.locationNotFound, true) ::
        (expectedMissResults 1 ts.length),
       ⟨cache, some (1 + ts.length, t0 + rateLimitWindow)⟩) := by
    simp [repeatedMisses, geocode, hmiss, check_rate_limit, rateLimitMax,
      hrest]
  rw [h0, hlen]
  refine ⟨?_, rfl, ?_⟩
  · show (GeoOutcome.locationNotFound, true) :: expectedMissResults 1 10 = _
    decide
  intro u hu lat lon addr
  have hnotlt : ¬ u < t0 + rateLimitWindow := Nat.not_lt.mpr hu
  simp [geocode, hmiss, check_rate_limit, hnotlt, rateLimitMax]

/-- Concrete witness for `geocode_rate_limit_spec`: eleven immediate
misses for (paris, france) from an empty cache, then a call at second
60. -/
theorem geocode_rate_limit_spec_witness :
    (repeatedMisses "paris" "france" ⟨[], none⟩
        (0 :: List.replicate 10 0)).1 =
      List.replicate 10 (GeoOutcome.locationNotFound, true) ++
        [(GeoOutcome.rateLimitExceeded, false)] ∧
    (geocode (repeatedMisses "paris" "france" ⟨[], none⟩
          (0 :: List.replicate 10 0)).2 60
        (UpstreamGeo.located 48 2 "Paris, France") "paris" "france").1 =
      GeoOutcome.resolved
        { city := "paris", country := "france", latitude := 48,
          longitude := 2, displayName := "Paris, France", cached := false } := by
  have h := geocode_rate_limit_spec "paris" "france" [] 0
    (List.replicate 10 0) rfl (by decide) (by decide)
  refine ⟨h.1, ?_⟩
  rw [h.2.2 60 (by decide) 48 2 "Paris, France"]

/-- Helper: any cache-missing geocode call that the limiter allows
consults the upstream resolver and stores the advanced counter. -/
theorem geocode_miss_consults (st : GeoState) (now : Nat)
    (up : UpstreamGeo) (city country : String)
    (hmiss : st.cache.lookup (geocodeCacheKey city country) = none)
    (hallow : (check_rate_limit now st.rateLimiter).1 = true) :
    (geocode st now up city country).2.2 = true ∧
    (geocode st now up city country).2.1.rateLimiter =
      (check_rate_limit now st.rateLimiter).2 := by
  cases up <;> simp [geocode, hmiss, hallow]

/-- C10: on a cache miss whose upstream answer is not-found or a
transport error, the cache is left unchanged while the rate-limit counter
still advances; hence an immediately repeated geocode of the same pair
misses again, and — whenever the limiter allows it — consults the
upstream resolver once more and advances the counter again. -/
theorem geocode_no_cache_write_on_failure (st : GeoState) (now : Nat)
    (up : UpstreamGeo) (city country : String)
    (hmiss : st.cache.lookup (geocodeCacheKey city country) = none)
    (hup : up = UpstreamGeo.nothingFound ∨
      ∃ msg, up = UpstreamGeo.transportFailure msg) :
    ((geocode st now up city country).2.1).cache = st.cache ∧
    ((geocode st now up city country).2.1).rateLimiter =
      (check_rate_limit now st.rateLimiter).2 ∧
    (∀ now2 up2,
      (check_rate_limit now2
          ((geocode st now up city country).2.1).rateLimiter).1 = true →
      (geocode ((geocode st now up city country).2.1) now2 up2
          city country).2.2 = true ∧
      (geocode ((geocode st now up city country).2.1) now2 up2
          city country).2.1.rateLimiter =
        (check_rate_limit now2
          ((geocode st now up city country).2.1).rateLimiter).2) := by
  have hshape : ((geocode st now up city country).2.1).cache = st.cache ∧
      ((geocode st now up city country).2.1).rateLimiter =
        (check_rate_limit now st.rateLimiter).2 := by
    rcases hup with h | ⟨msg, h⟩ <;> subst h <;>
      by_cases hallow : (check_rate_limit now st.rateLimiter).1 <;>
        simp [geocode, hmiss, hallow]
  refine ⟨hshape.1, hshape.2, ?_⟩
  intro now2 up2 hallow2
  have hmiss2 :
      ((geocode st now up city country).2.1).cache.lookup
        (geocodeCacheKey city country) = none := by
    rw [hshape.1]
    exact hmiss
  exact geocode_miss_consults ((geocode st now up city country).2.1)
    now2 up2 city country hmiss2 hallow2

/-- Concrete witness for `geocode_no_cache_write_on_failure`: a fresh
state, a not-found upstream answer, then a second call with a located
answer. -/
theorem geocode_no_cache_write_on_failure_witness :
    ((geocode ⟨[], none⟩ 5 UpstreamGeo.nothingFound "oz" "nowhere").2.1).cache = [] ∧
    (geocode ((geocode ⟨[], none⟩ 5 UpstreamGeo.nothingFound "oz" "nowhere").2.1)
        6 (UpstreamGeo.located 1 1 "Oz") "oz" "nowhere").2.2 = true := by
  have h := geocode_no_cache_write_on_failure ⟨[], none⟩ 5
    UpstreamGeo.nothingFound "oz" "nowhere" rfl (Or.inl rfl)
  refine ⟨h.1, ?_⟩
  exact (h.2.2 6 (UpstreamGeo.located 1 1 "Oz") (by decide)).1

/-- Finalization preserves the job's id and theme. -/
theorem finalizeJob_id (render : String → RenderOutcome) (now : Nat)
    (j : Job) :
    (finalizeJob render now j).id = j.id ∧
    (finalizeJob render now j).theme = j.theme := by
  unfold finalizeJob
  cases render j.theme <;> simp [completeJob, failJobBatch]

/-- `jobAfter` preserves the job's id and theme. -/
theorem jobAfter_id (render : String → RenderOutcome) (done : List String)
    (now : Nat) (j : Job) :
    (jobAfter render done now j).id = j.id ∧
    (jobAfter render done now j).theme = j.theme := by
  unfold jobAfter
  by_cases h : j.theme ∈ done <;> simp [h, finalizeJob_id]

/-- Shape of the members of a batch job list: bounded fresh ids, themes
from the theme list, status PROCESSING. -/
theorem mkBatchJobsFrom_mem (s : Nat) (themes : List String) :
    ∀ j ∈ mkBatchJobsFrom s themes,
      s ≤ j.id ∧ j.id < s + themes.length ∧ j.theme ∈ themes ∧
        j.status = JobStatus.processing := by
  induction themes generalizing s with
  | nil =>
    intro j hj
    simp [mkBatchJobsFrom] at hj
  | cons t ts ih =>
    intro j hj
    rw [mkBatchJobsFrom] at hj
    rcases List.mem_cons.mp hj with h | h
    · subst h
      refine ⟨Nat.le_refl s, ?_, ?_, rfl⟩
      · simp only [List.length_cons]
        omega
      · simp
    · obtain ⟨h1, h2, h3, h4⟩ := ih (s + 1) j h
      refine ⟨by omega, ?_, by simp [h3], h4⟩
      simp only [List.length_cons]
      omega

/-- In a batch job list over duplicate-free themes, both the id and the
theme identify the job. -/
theorem mkBatchJobsFrom_uniq (s : Nat) (themes : List String)
    (hnd : themes.Nodup) :
    ∀ j ∈ mkBatchJobsFrom s themes, ∀ k ∈ mkBatchJobsFrom s themes,
      (j.id = k.id → j = k) ∧ (j.theme = k.theme → j = k) := by
  induction themes generalizing s with
  | nil =>
    intro j hj
    simp [mkBatchJobsFrom] at hj
  | cons t ts ih =>
    obtain ⟨hts, hnds⟩ := List.nodup_cons.mp hnd
    intro j hj k hk
    rw [mkBatchJobsFrom] at hj hk
    rcases List.mem_cons.mp hj with hj1 | hj1 <;>
      rcases List.mem_cons.mp hk with hk1 | hk1
    · subst hj1; subst hk1
      exact ⟨fun _ => rfl, fun _ => rfl⟩
    · subst hj1
      obtain ⟨hk2, _, hk3, _⟩ := mkBatchJobsFrom_mem (s + 1) ts k hk1
      constructor
      · intro hid
        exfalso
        simp at hid
        omega
      · intro hth
        exfalso
        simp at hth
        exact hts (by rw [hth]; exact hk3)
    · subst hk1
      obtain ⟨hj2, _, hj3, _⟩ := mkBatchJobsFrom_mem (s + 1) ts j hj1
      constructor
      · intro hid
        exfalso
        simp at hid
        omega
      · intro hth
        exfalso
        simp at hth
        exact hts (by rw [← hth]; exact hj3)
    · exact ih (s + 1) hnds j hj1 k hk1

/-- A successful `job_map` lookup returns a member job with the looked-up
theme. -/
theorem jobMapLookup_some (jobs : List Job) (t : String) (j : Job)
    (h : jobMapLookup jobs t = some j) : j ∈ jobs ∧ j.theme = t := by
  unfold jobMapLookup at h
  have hm := List.mem_of_find?_eq_some h
  have hp := List.find?_some h
  rw [List.mem_reverse] at hm
  simp at hp
  exact ⟨hm, hp⟩

/-- The `job_map` lookup succeeds whenever some member job carries the
theme. -/
theorem jobMapLookup_isSome (jobs : List Job) (t : String) (j : Job)
    (hj : j ∈ jobs) (ht : j.theme = t) :
    ∃ k, jobMapLookup jobs t = some k := by
  unfold jobMapLookup
  have hs : (jobs.reverse.find? (fun j => j.theme == t)).isSome := by
    rw [List.find?_isSome]
    exact ⟨j, List.mem_reverse.mpr hj, by simp [ht]⟩
  exact Option.isSome_iff_exists.mp hs

/-- Every theme of the batch has a member job carrying it. -/
theorem mkBatchJobsFrom_theme_exists (s : Nat) (themes : List String)
    (t : String) (ht : t ∈ themes) :
    ∃ j ∈ mkBatchJobsFrom s themes, j.theme = t := by
  induction themes generalizing s with
  | nil => simp at ht
  | cons u ts ih =>
    rcases List.mem_cons.mp ht with h | h
    · refine ⟨{ id := s, theme := u, status := JobStatus.processing, startedAt := some 0 }, ?_, ?_⟩
      · rw [mkBatchJobsFrom]
        exact List.mem_cons_self _ _
      · simp [h]
    · obtain ⟨j, hj, hjt⟩ := ih (s + 1) h
      refine ⟨j, ?_, hjt⟩
      rw [mkBatchJobsFrom]
      exact List.mem_cons_of_mem _ hj

/-- `postersOf` distributes over appended theme lists. -/
theorem postersOf_append (jobs0 : List Job) (render : String → RenderOutcome)
    (l1 l2 : List String) :
    postersOf jobs0 render (l1 ++ l2) =
      postersOf jobs0 render l1 ++ postersOf jobs0 render l2 := by
  induction l1 with
  | nil => simp [postersOf]
  | cons t ts ih =>
    cases hl : jobMapLookup jobs0 t with
    | none => simp [postersOf, hl, ih]
    | some j => cases hr : render t <;> simp [postersOf, hl, hr, ih]

/-- Every created poster row comes from a successfully rendered theme of
the processed list and carries that theme's job id. -/
theorem postersOf_jobId_mem (jobs0 : List Job)
    (render : String → RenderOutcome) (l : List String) (p : PosterRow)
    (hp : p ∈ postersOf jobs0 render l) :
    ∃ t ∈ l, ∃ j, jobMapLookup jobs0 t = some j ∧
      render t = RenderOutcome.rendered ∧
      p = { id := posterIdFor j.id, jobId := j.id, theme := t } := by
  induction l with
  | nil => simp [postersOf] at hp
  | cons t ts ih =>
    cases hl : jobMapLookup jobs0 t with
    | none =>
      rw [postersOf, hl] at hp
      obtain ⟨u, hu, k, hk, hrk, hpk⟩ := ih hp
      exact ⟨u, List.mem_cons_of_mem _ hu, k, hk, hrk, hpk⟩
    | some j =>
      cases hr : render t with
      | rendered =>
        rw [postersOf, hl, hr] at hp
        rcases List.mem_cons.mp hp with hp1 | hp1
        · exact ⟨t, List.mem_cons_self _ _, j, hl, hr, hp1⟩
        · obtain ⟨u, hu, k, hk, hrk, hpk⟩ := ih hp1
          exact ⟨u, List.mem_cons_of_mem _ hu, k, hk, hrk, hpk⟩
      | renderError m =>
        rw [postersOf, hl, hr] at hp
        obtain ⟨u, hu, k, hk, hrk, hpk⟩ := ih hp
        exact ⟨u, List.mem_cons_of_mem _ hu, k, hk, hrk, hpk⟩

/-- A successfully rendered theme of the processed list has its poster
row in the store. -/
theorem postersOf_mem_of_rendered (jobs0 : List Job)
    (render : String → RenderOutcome) (l : List String) (t : String)
    (j : Job) (htl : t ∈ l) (hl : jobMapLookup jobs0 t = some j)
    (hr : render t = RenderOutcome.rendered) :
    ({ id := posterIdFor j.id, jobId := j.id, theme := t } : PosterRow) ∈
      postersOf jobs0 render l := by
  induction l with
  | nil => simp at htl
  | cons u ts ih =>
    rcases List.mem_cons.mp htl with h | h
    · subst h
      rw [postersOf, hl, hr]
      exact List.mem_cons_self _ _
    · have hrec := ih h
      cases hlu : jobMapLookup jobs0 u with
      | none =>
        rw [postersOf, hlu]
        exact hrec
      | some k =>
        cases hru : render u with
        | rendered =>
          rw [postersOf, hlu, hru]
          exact List.mem_cons_of_mem _ hrec
        | renderError m =>
          rw [postersOf, hlu, hru]
          exact hrec

/-- Updating the theme-`t` job inside a store of partially finalized
jobs finalizes exactly that job, provided ids and themes identify jobs. -/
theorem updateJob_map_jobAfter (render : String → RenderOutcome)
    (now : Nat) (jobs : List Job) (done : List String) (t : String)
    (jt : Job) (f : Job → Job)
    (hjttheme : jt.theme = t) (ht_done : t ∉ done)
    (hf : f jt = finalizeJob render now jt)
    (hid : ∀ k ∈ jobs, k.id = jt.id → k = jt)
    (hth : ∀ k ∈ jobs, k.theme = t → k = jt) :
    updateJob (jobs.map (jobAfter render done now)) jt.id f =
      jobs.map (jobAfter render (done ++ [t]) now) := by
  unfold updateJob
  rw [List.map_map]
  apply List.map_congr_left
  intro k hk
  simp only [Function.comp]
  by_cases hkid : k.id = jt.id
  · have hkjt : k = jt := hid k hk hkid
    subst hkjt
    have h1 : jobAfter render done now k = k := by
      unfold jobAfter
      rw [if_neg (hjttheme ▸ ht_done)]
    rw [h1]
    rw [if_pos (by simp)]
    rw [hf]
    unfold jobAfter
    rw [if_pos (by simp [hjttheme])]
  · have hda : (jobAfter render done now k).id = k.id :=
      (jobAfter_id render done now k).1
    rw [if_neg (by simp [hda, hkid])]
    have h2 : k.theme ≠ t := by
      intro hr
      exact hkid (congrArg Job.id (hth k hk hr))
    unfold jobAfter
    by_cases hkd : k.theme ∈ done
    · rw [if_pos hkd, if_pos (by simp [hkd])]
    · rw [if_neg hkd, if_neg (by simp [hkd, h2])]

/-- One iteration of the render loop advances the processed-theme
characterization by the theme just rendered. -/
theorem result_callback_step (render : String → RenderOutcome) (now : Nat)
    (themes : List String) (hnd : themes.Nodup)
    (done : List String) (t : String) (rest : List String)
    (hsplit : themes = done ++ t :: rest) :
    result_callback (mkBatchJobs themes)
      ⟨(mkBatchJobs themes).map (jobAfter render done now),
       postersOf (mkBatchJobs themes) render done⟩
      t (render t) now =
    ⟨(mkBatchJobs themes).map (jobAfter render (done ++ [t]) now),
     postersOf (mkBatchJobs themes) render (done ++ [t])⟩ := by
  have ht_themes : t ∈ themes := by
    rw [hsplit]
    simp
  have ht_done : t ∉ done := by
    intro hmem
    have hn : (done ++ t :: rest).Nodup := hsplit ▸ hnd
    have hdis := (List.nodup_append.mp hn).2.2
    exact hdis hmem (by simp)
  obtain ⟨j0, hj0mem, hj0t⟩ :=
    mkBatchJobsFrom_theme_exists 0 themes t ht_themes
  obtain ⟨jt, hjt⟩ := jobMapLookup_isSome (mkBatchJobs themes) t j0 hj0mem hj0t
  obtain ⟨hjtmem, hjttheme⟩ := jobMapLookup_some (mkBatchJobs themes) t jt hjt
  have huniq := mkBatchJobsFrom_uniq 0 themes hnd
  have hid : ∀ k ∈ mkBatchJobs themes, k.id = jt.id → k = jt :=
    fun k hk h => (huniq k hk jt hjtmem).1 h
  have hth : ∀ k ∈ mkBatchJobs themes, k.theme = t → k = jt :=
    fun k hk h => (huniq k hk jt hjtmem).2 (h.trans hjttheme.symm)
  have hposters1 : postersOf (mkBatchJobs themes) render [t] =
      match render t with
      | RenderOutcome.rendered =>
        [{ id := posterIdFor jt.id, jobId := jt.id, theme := t }]
      | RenderOutcome.renderError _ => [] := by
    cases hr : render t <;> simp [postersOf, hjt, hr]
  cases hrt : render t with
  | rendered =>
    have hnoposter : (postersOf (mkBatchJobs themes) render done).any
        (fun p => p.jobId == jt.id) = false := by
      rw [List.any_eq_false]
      intro p hp
      obtain ⟨u, hu, k, hk, hrk, hpk⟩ :=
        postersOf_jobId_mem (mkBatchJobs themes) render done p hp
      obtain ⟨hkmem, hktheme⟩ := jobMapLookup_some (mkBatchJobs themes) u k hk
      subst hpk
      simp only [beq_iff_eq]
      intro hidk
      have hkj : k = jt := hid k hkmem hidk
      have hut : u = t := by
        rw [← hktheme, hkj, hjttheme]
      exact ht_done (hut ▸ hu)
    have hjobs := updateJob_map_jobAfter render now (mkBatchJobs themes)
      done t jt (completeJob now) hjttheme ht_done
      (by unfold finalizeJob; rw [hjttheme, hrt]) hid hth
    simp only [result_callback, hjt, hnoposter, Bool.false_eq_true, if_false]
    rw [hjobs, postersOf_append, hposters1, hrt]
  | renderError msg =>
    have hjobs := updateJob_map_jobAfter render now (mkBatchJobs themes)
      done t jt (failJobBatch now msg) hjttheme ht_done
      (by unfold finalizeJob; rw [hjttheme, hrt]) hid hth
    simp only [result_callback, hjt]
    rw [hjobs, postersOf_append, hposters1, hrt]
    simp

/-- The render loop finalizes the remaining themes, extending any
already-processed prefix to the whole theme list. -/
theorem batchRenderLoop_char (render : String → RenderOutcome) (now : Nat)
    (themes : List String) (hnd : themes.Nodup) :
    ∀ remaining done : List String, themes = done ++ remaining →
      batchRenderLoop render (mkBatchJobs themes) now remaining
        ⟨(mkBatchJobs themes).map (jobAfter render done now),
         postersOf (mkBatchJobs themes) render done⟩ =
      ⟨(mkBatchJobs themes).map (jobAfter render themes now),
       postersOf (mkBatchJobs themes) render themes⟩ := by
  intro remaining
  induction remaining with
  | nil =>
    intro done h
    have hde : done = themes := by
      rw [h, List.append_nil]
    rw [batchRenderLoop, hde]
  | cons t rest ih =>
    intro done h
    rw [batchRenderLoop,
      result_callback_step render now themes hnd done t rest h]
    exact ih (done ++ [t]) (by rw [h]; simp)

/-- Characterization of one batch run: every job is finalized by its own
render outcome and the poster table lists the successful themes in
order. -/
theorem run_batch_char (themes : List String)
    (render : String → RenderOutcome) (now : Nat) (hnd : themes.Nodup) :
    run_batch themes render now =
      ⟨(mkBatchJobs themes).map (jobAfter render themes now),
       postersOf (mkBatchJobs themes) render themes⟩ := by
  have h0 : (mkBatchJobs themes).map (jobAfter render [] now) =
      mkBatchJobs themes := by
    conv_rhs => rw [← List.map_id (mkBatchJobs themes)]
    apply List.map_congr_left
    intro j _
    simp [jobAfter]
  have hloop := batchRenderLoop_char render now themes hnd themes [] rfl
  rw [h0] at hloop
  exact hloop

/-- Counting completed jobs among the finalized jobs counts the
successfully rendered themes of the member jobs. -/
theorem countCompleted_map_jobAfter (render : String → RenderOutcome)
    (now : Nat) (themesAll : List String) (jobs : List Job)
    (h : ∀ j ∈ jobs, j.theme ∈ themesAll) :
    countCompleted (jobs.map (jobAfter render themesAll now)) =
      (jobs.filter (fun j => isRendered (render j.theme))).length := by
  induction jobs with
  | nil => rfl
  | cons j js ih =>
    have hj := h j (List.mem_cons_self _ _)
    have ihs := ih (fun k hk => h k (List.mem_cons_of_mem _ hk))
    cases hr : render j.theme with
    | rendered =>
      simp [countCompleted, jobAfter, hj, finalizeJob, hr, completeJob,
        isRendered, ihs, List.filter] at ihs ⊢
      omega
    | renderError m =>
      simp [countCompleted, jobAfter, hj, finalizeJob, hr, failJobBatch,
        isRendered, ihs, List.filter] at ihs ⊢
      exact ihs

/-- The poster count equals the number of successfully rendered themes,
whenever every theme resolves in the job map. -/
theorem postersOf_length_eq (jobs0 : List Job)
    (render : String → RenderOutcome) (l : List String)
    (h : ∀ t ∈ l, ∃ j ∈ jobs0, j.theme = t) :
    (postersOf jobs0 render l).length =
      (l.filter (fun t => isRendered (render t))).length := by
  induction l with
  | nil => rfl
  | cons t ts ih =>
    have hts := ih (fun u hu => h u (List.mem_cons_of_mem _ hu))
    obtain ⟨j, hj, hjt⟩ := h t (List.mem_cons_self _ _)
    obtain ⟨k, hk⟩ := jobMapLookup_isSome jobs0 t j hj hjt
    cases hr : render t with
    | rendered =>
      simp [postersOf, hk, hr, isRendered, hts, List.filter]
    | renderError m =>
      simp [postersOf, hk, hr, isRendered, hts, List.filter]

/-- `isRendered` on the success outcome. -/
theorem isRendered_rendered : isRendered RenderOutcome.rendered = true := rfl

/-- `isRendered` on a failure outcome. -/
theorem isRendered_error (m : String) :
    isRendered (RenderOutcome.renderError m) = false := rfl

/-- Filtering member jobs by their themes' render success counts the
successful themes. -/
theorem mkBatchJobsFrom_filter_length (render : String → RenderOutcome)
    (s : Nat) (themes : List String) :
    ((mkBatchJobsFrom s themes).filter
        (fun j => isRendered (render j.theme))).length =
      (themes.filter (fun t => isRendered (render t))).length := by
  induction themes generalizing s with
  | nil => rfl
  | cons t ts ih =>
    cases hr : render t with
    | rendered =>
      simp [mkBatchJobsFrom, List.filter_cons, hr, isRendered_rendered,
        isRendered_error, ih (s + 1)]
    | renderError m =>
      simp [mkBatchJobsFrom, List.filter_cons, hr, isRendered_rendered,
        isRendered_error, ih (s + 1)]

/-- C4: for a batch over duplicate-free themes, at most one poster per
theme is created (so between 0 and N rows); the number of COMPLETED jobs
equals the number of Poster rows; and every member job's terminal status
is decided solely by its own theme's render outcome — COMPLETED exactly
when its poster row exists, FAILED on its own render failure — so one
theme's failure neither blocks nor fails the sibling themes. -/
theorem batch_posters_invariants (themes : List String)
    (render : String → RenderOutcome) (now : Nat) (hnd : themes.Nodup) :
    (run_batch themes render now).posters.length ≤ themes.length ∧
    countCompleted (run_batch themes render now).jobs =
      (run_batch themes render now).posters.length ∧
    (∀ j ∈ (run_batch themes render now).jobs,
      j.status = renderStatus (render j.theme) ∧
      (j.status = JobStatus.completed ↔
        (run_batch themes render now).posters.any
          (fun p => p.jobId == j.id) = true)) := by
  rw [run_batch_char themes render now hnd]
  have hexist : ∀ t ∈ themes, ∃ j ∈ mkBatchJobs themes, j.theme = t :=
    fun t ht => mkBatchJobsFrom_theme_exists 0 themes t ht
  have hmemthemes : ∀ j ∈ mkBatchJobs themes, j.theme ∈ themes :=
    fun j hj => (mkBatchJobsFrom_mem 0 themes j hj).2.2.1
  have hlen := postersOf_length_eq (mkBatchJobs themes) render themes hexist
  have huniq := mkBatchJobsFrom_uniq 0 themes hnd
  refine ⟨?_, ?_, ?_⟩
  · rw [hlen]
    exact List.length_filter_le _ _
  · rw [countCompleted_map_jobAfter render now themes (mkBatchJobs themes)
      hmemthemes, hlen]
    exact mkBatchJobsFrom_filter_length render 0 themes
  · intro j hj
    obtain ⟨k, hkmem, hkeq⟩ := List.mem_map.mp hj
    have hkth : k.theme ∈ themes := hmemthemes k hkmem
    have hfin : j = finalizeJob render now k := by
      rw [← hkeq]
      unfold jobAfter
      rw [if_pos hkth]
    have hjid : j.id = k.id := by
      rw [hfin]
      exact (finalizeJob_id render now k).1
    have hjth : j.theme = k.theme := by
      rw [hfin]
      exact (finalizeJob_id render now k).2
    constructor
    · rw [hfin, (finalizeJob_id render now k).2]
      cases hrc : render k.theme <;>
        simp [finalizeJob, renderStatus, hrc, completeJob, failJobBatch]
    · constructor
      · intro hcomp
        have hrk : render k.theme = RenderOutcome.rendered := by
          by_contra hne
          cases hrc : render k.theme with
          | rendered => exact hne hrc
          | renderError m =>
            rw [hfin] at hcomp
            unfold finalizeJob at hcomp
            rw [hrc] at hcomp
            simp [failJobBatch] at hcomp
        obtain ⟨m, hm⟩ := jobMapLookup_isSome (mkBatchJobs themes)
          k.theme k hkmem rfl
        obtain ⟨hmmem, hmth⟩ := jobMapLookup_some (mkBatchJobs themes)
          k.theme m hm
        have hmk : m = k := (huniq m hmmem k hkmem).2 hmth
        have hrow := postersOf_mem_of_rendered (mkBatchJobs themes) render
          themes k.theme m hkth hm hrk
        rw [List.any_eq_true]
        refine ⟨_, hrow, ?_⟩
        simp [hmk, hjid]
      · intro hany
        obtain ⟨p, hpmem, hpid⟩ := List.any_eq_true.mp hany
        obtain ⟨u, hu, m, hm, hrm, hpk⟩ :=
          postersOf_jobId_mem (mkBatchJobs themes) render themes p hpmem
        obtain ⟨hmmem, hmth⟩ := jobMapLookup_some (mkBatchJobs themes) u m hm
        have hpid2 : p.jobId = j.id := by
          simpa using hpid
        have hmid : m.id = k.id := by
          rw [← hjid, ← hpid2, hpk]
        have hmk : m = k := (huniq m hmmem k hkmem).1 hmid
        have hrk : render k.theme = RenderOutcome.rendered := by
          rw [← hmk, hmth]
          exact hrm
        rw [hfin]
        unfold finalizeJob
        rw [hrk]
        simp [completeJob]

/-- Demo render oracle: the pastel theme's render throws, the noir
theme's render succeeds. -/
def demoBatchRender : String → RenderOutcome :=
  fun t =>
    if t == "pastel" then RenderOutcome.renderError "boom"
    else RenderOutcome.rendered

/-- The noir job after the demo batch run. -/
def demoNoirFinal : Job :=
  { id := 0,
    theme := "noir",
    status := JobStatus.completed,
    progress := 100,
    currentStep := some "Complete! noir",
    startedAt := some 0,
    completedAt := some 3,
    result := some 0 }

/-- The pastel job after the demo batch run. -/
def demoPastelFinal : Job :=
  { id := 1,
    theme := "pastel",
    status := JobStatus.failed,
    progress := 100,
    currentStep := some "Failed: pastel",
    startedAt := some 0,
    failedAt := some 3,
    errorType := some "BatchGenerationError",
    errorMessage := some "boom" }

/-- Concrete witness for `batch_posters_invariants`: a noir+pastel batch
in which pastel's render fails — noir still completes with its poster
row, pastel alone is marked failed, and the counts agree. -/
theorem batch_posters_invariants_witness :
    (["noir", "pastel"] : List String).Nodup ∧
    (run_batch ["noir", "pastel"] demoBatchRender 3).posters.length ≤ 2 ∧
    countCompleted (run_batch ["noir", "pastel"] demoBatchRender 3).jobs =
      (run_batch ["noir", "pastel"] demoBatchRender 3).posters.length ∧
    demoNoirFinal.status = renderStatus (demoBatchRender demoNoirFinal.theme) ∧
    (demoNoirFinal.status = JobStatus.completed ↔
      (run_batch ["noir", "pastel"] demoBatchRender 3).posters.any
        (fun p => p.jobId == demoNoirFinal.id) = true) ∧
    demoPastelFinal.status =
      renderStatus (demoBatchRender demoPastelFinal.theme) := by
  have hnd : (["noir", "pastel"] : List String).Nodup := by decide
  have h := batch_posters_invariants ["noir", "pastel"] demoBatchRender 3 hnd
  have hnoir := h.2.2 demoNoirFinal (by decide)
  have hpastel := h.2.2 demoPastelFinal (by decide)
  exact ⟨hnd, h.1, h.2.1, hnoir.1, hnoir.2, hpastel.1⟩

end MapPoster
